import Mathlib

/-!
Verification of the health-risk federated-learning repository against its
design specification.

The source files are shallowly embedded below.  Numeric tensors are
modelled over `ℚ` (exact arithmetic); a `ParameterSet` is an ordered list
of numeric arrays, each array a `List ℚ`.  Effectful code (mlflow logging,
pipeline invocation) is modelled as an explicit event trace.  Code of the
repository that is referenced but not present in the source tree (the
aggregator/round coordinator in `federated_learning/server.py` and the
`DriftMonitor` in `federated_learning/drift_detector.py`) is modelled from
the specification text and marked as such in its doc comment.
-/

namespace HealthRisk

/-- A `ParameterSet`: ordered sequence of numeric arrays (spec §3). -/
abbrev ParameterSet := List (List ℚ)

/-- The shape of a `ParameterSet`: the list of per-index array lengths. -/
def shapeOf (ps : ParameterSet) : List ℕ := ps.map List.length

/-! ## Retraining pipeline — `src/part2-mlops/mlops/retraining_pipeline.py` -/

/-- One observable effect of the retraining-pipeline module: an mlflow
`log_param` call, or an invocation of the retraining pipeline
(`trigger_retraining_pipeline`, the code-level counterpart of the spec
name `run_session`). -/
inductive Event
  | logParam (key : String) (val : String)
  | pipelineInvocation
  deriving DecidableEq, Repr

/-- Embedding of `trigger_retraining_pipeline` (lines 84-101): its body
only logs two mlflow parameters and prints instructions. -/
def trigger_retraining_pipeline (timestamp : String) : List Event :=
  [Event.logParam "retraining_triggered" "True",
   Event.logParam "retraining_timestamp" timestamp]

/-- Embedding of `check_drift_and_retrain` (lines 24-82).  The drift
verdict computed by the (external to src) `DriftMonitor` is taken as the
input `drift_detected`; the function logs the four mlflow parameters, then
— iff `drift_detected and trigger_retraining` — invokes
`trigger_retraining_pipeline`, and returns `drift_detected` to its caller.
Returns the event trace together with the Python return value. -/
def check_drift_and_retrain (threshold : ℚ) (referenceDate currentDate timestamp : String)
    (drift_detected : Bool) (trigger_retraining : Bool) : List Event × Bool :=
  let baseLog : List Event :=
    [Event.logParam "drift_threshold" (toString threshold),
     Event.logParam "drift_detected" (toString drift_detected),
     Event.logParam "reference_date" referenceDate,
     Event.logParam "current_date" currentDate]
  let branchLog : List Event :=
    if drift_detected && trigger_retraining then
      Event.pipelineInvocation :: trigger_retraining_pipeline timestamp
    else
      []
  (baseLog ++ branchLog, drift_detected)

/-- Number of retraining-pipeline invocations in an event trace. -/
def pipelineInvocations (events : List Event) : ℕ :=
  events.countP (fun e => e = Event.pipelineInvocation)

/-- Number of times the drift decision was recorded
(`mlflow.log_param("drift_detected", ...)`) in an event trace. -/
def driftDecisionRecords (events : List Event) : ℕ :=
  events.countP (fun e => match e with
    | Event.logParam k _ => k = "drift_detected"
    | _ => false)

/-! ## Federated client — `src/part1-data-model/federated_learning/client.py` -/

/-- The flwr status code enumeration (the client only ever uses `OK`). -/
inductive Code
  | OK
  | GET_PROPERTIES_NOT_IMPLEMENTED
  | GET_PARAMETERS_NOT_IMPLEMENTED
  | FIT_NOT_IMPLEMENTED
  | EVALUATE_NOT_IMPLEMENTED
  deriving DecidableEq, Repr

/-- A flwr `Status`: a code plus a message. -/
structure Status where
  code : Code
  message : String
  deriving DecidableEq, Repr

/-- The incoming `ins.parameters` value of a fit/evaluate call, as the
client can observe it: absent (`None`), malformed (deserialization
raises), or a well-formed `ParameterSet`. -/
inductive Incoming
  | absent
  | malformed
  | valid (ps : ParameterSet)
  deriving DecidableEq, Repr

/-- `flwr.common.parameters_to_ndarrays`: raises (here `Except.error`) on
an absent or malformed value, otherwise yields the parameter arrays. -/
def parameters_to_ndarrays : Incoming → Except Unit ParameterSet
  | Incoming.absent => Except.error ()
  | Incoming.malformed => Except.error ()
  | Incoming.valid ps => Except.ok ps

/-- The parameter-loading block shared by `fit` (lines 25-32) and
`evaluate` (lines 73-78): try to deserialize; on success with a non-empty
list, load into the local model; any exception is swallowed by the blanket
`except Exception: pass` and the current local state is kept. -/
def loadIncomingParams (localState : ParameterSet) (ins : Incoming) : ParameterSet :=
  match parameters_to_ndarrays ins with
  | Except.ok recv => if recv.length > 0 then recv else localState
  | Except.error _ => localState

/-- A flwr `FitRes` as the client builds it (lines 59-64). -/
structure FitRes where
  status : Status
  parameters : ParameterSet
  numExamples : ℕ
  deriving DecidableEq, Repr

/-- A flwr `EvaluateRes` as the client builds it (lines 93-98). -/
structure EvaluateRes where
  status : Status
  loss : ℚ
  numExamples : ℕ
  auc : ℚ
  deriving DecidableEq, Repr

/-- Embedding of `HealthRiskClient.fit`.  The local-training step
(`HealthRiskModel`, not under src) is abstracted as the argument `train`,
mapping the loaded model state to updated parameters and a sample count;
`initModel` stands for `HealthRiskModel()`.  The method unconditionally
returns status `OK` / `"Success"`. -/
def HealthRiskClient.fit (initModel : ParameterSet)
    (train : ParameterSet → ParameterSet × ℕ)
    (localModel : Option ParameterSet) (ins : Incoming) : FitRes :=
  let m0 := localModel.getD initModel
  let m1 := loadIncomingParams m0 ins
  let trained := train m1
  { status := { code := Code.OK, message := "Success" },
    parameters := trained.1,
    numExamples := trained.2 }

/-- Embedding of `HealthRiskClient.evaluate`.  Scoring
(`predict_proba` + `roc_auc_score`, not under src) is abstracted as
`score`, mapping the loaded model state to an AUC and a sample count.
The method unconditionally returns status `OK` / `"Success"` with loss
`0.0`. -/
def HealthRiskClient.evaluate (initModel : ParameterSet)
    (score : ParameterSet → ℚ × ℕ)
    (localModel : Option ParameterSet) (ins : Incoming) : EvaluateRes :=
  let m0 := localModel.getD initModel
  let m1 := loadIncomingParams m0 ins
  let scored := score m1
  { status := { code := Code.OK, message := "Success" },
    loss := 0,
    numExamples := scored.2,
    auc := scored.1 }

/-- The coordinator-side test "responds with a failure status"
(spec §4.1 step 3): a result is excluded iff its status code is not `OK`. -/
def FitRes.hasFailureStatus (r : FitRes) : Bool :=
  r.status.code ≠ Code.OK

/-! ## Aggregator and Round Coordinator

The aggregator and round coordinator are referenced from
`run_federated.py` (`federated_learning.server.start_server`) but
`federated_learning/server.py` is not under src, so they are modelled
from the specification (§4.1, §4.2). -/

/-- A participant fit result as the coordinator owns it (spec §3):
a `ParameterSet`, a positive example count, and a success/failure
status.  Metrics are irrelevant to the aggregation claims and omitted. -/
structure FitResult where
  parameters : ParameterSet
  examples : ℕ
  statusOk : Bool
  deriving DecidableEq, Repr, Inhabited

/-- Errors of the aggregator contract (spec §4.2). -/
inductive AggError
  | emptyInput
  | incompatibleShape
  deriving DecidableEq, Repr

/-- Total example count of a list of fit results. -/
def totalExamples (results : List FitResult) : ℕ :=
  (results.map FitResult.examples).sum

/-- The weighted numerator at tensor index `i`, element index `j`:
`sum over results of examples * parameters[i][j]`. -/
def weightedSum (results : List FitResult) (i j : ℕ) : ℚ :=
  (results.map (fun r => (r.examples : ℚ) * ((r.parameters.getD i []).getD j 0))).sum

/-- The aggregated `ParameterSet` for a given shape: at each index `i`
and element `j`, the example-count-weighted mean
`sum(examples * parameters[i][j]) / sum(examples)`. -/
def aggParams (results : List FitResult) (shape : List ℕ) : ParameterSet :=
  (List.range shape.length).map (fun i =>
    (List.range (shape.getD i 0)).map (fun j =>
      weightedSum results i j / (totalExamples results : ℚ)))

/-- Modelled from the spec: `aggregate` (spec §4.2, federated averaging),
whose implementation (`federated_learning/server.py`) is not under src.
Fails with `EmptyInputError` on zero results and `IncompatibleShapeError`
when any two results have differing parameter shapes; otherwise yields the
example-count-weighted mean at every parameter index. -/
def aggregate (results : List FitResult) : Except AggError ParameterSet :=
  match results with
  | [] => Except.error AggError.emptyInput
  | r :: rs =>
    if ∀ s ∈ r :: rs, shapeOf s.parameters = shapeOf r.parameters then
      Except.ok (aggParams (r :: rs) (shapeOf r.parameters))
    else
      Except.error AggError.incompatibleShape

/-- Outcome of one federated round (spec §3, `RoundState`). -/
inductive RoundOutcome
  | completed
  | abortedInsufficientParticipants
  deriving DecidableEq, Repr

/-- One per-round log entry (spec §4.1: round number, participant count
used, outcome). -/
structure RoundLogEntry where
  roundNumber : ℕ
  participantsUsed : ℕ
  outcome : RoundOutcome
  deriving DecidableEq, Repr

/-- The responses collected in one round: `none` is a participant that
did not respond before the deadline (spec §4.1 step 3). -/
abbrev RoundResponses := List (Option FitResult)

/-- The valid, compatible fit results of a round (spec §4.1 step 3):
responses that arrived, report a success status, and carry a
`ParameterSet` compatible with the global shape. -/
def validResults (globalShape : List ℕ) (responses : RoundResponses) : List FitResult :=
  (responses.filterMap id).filter
    (fun r => r.statusOk && shapeOf r.parameters = globalShape)

/-- Modelled from the spec: one round of the Round Coordinator
(spec §4.1 steps 3-5), whose implementation
(`federated_learning/server.py`) is not under src.  Below
`min_participants` valid results the round aborts and the global state is
left unchanged; otherwise the global state is replaced by the aggregate.
Should the aggregator fail (impossible for a nonempty valid set, see
`aggregate_validResults_ok`), the round likewise aborts unchanged. -/
def runRound (minParticipants : ℕ) (global : ParameterSet)
    (responses : RoundResponses) : ParameterSet × RoundOutcome × ℕ :=
  let valid := validResults (shapeOf global) responses
  if valid.length < minParticipants then
    (global, RoundOutcome.abortedInsufficientParticipants, valid.length)
  else
    match aggregate valid with
    | Except.ok newGlobal => (newGlobal, RoundOutcome.completed, valid.length)
    | Except.error _ => (global, RoundOutcome.abortedInsufficientParticipants, valid.length)

/-- Auxiliary session loop carrying the current round number. -/
def runSessionAux (minParticipants : ℕ) (global : ParameterSet)
    (roundNumber : ℕ) : List RoundResponses → ParameterSet × List RoundLogEntry
  | [] => (global, [])
  | responses :: rest =>
    let step := runRound minParticipants global responses
    let tail := runSessionAux minParticipants step.1 (roundNumber + 1) rest
    (tail.1,
     { roundNumber := roundNumber,
       participantsUsed := step.2.2,
       outcome := step.2.1 } :: tail.2)

/-- Modelled from the spec: `run_session` (spec §4.1), whose
implementation (`federated_learning/server.py`) is not under src.  Runs
one round per element of `sessionResponses` (round numbers starting at 1),
threading the `GlobalModelState` through, and returns the final state with
the per-round log.  Aborted rounds are non-fatal: the session continues
to the next round. -/
def run_session (minParticipants : ℕ) (initialGlobal : ParameterSet)
    (sessionResponses : List RoundResponses) : ParameterSet × List RoundLogEntry :=
  runSessionAux minParticipants initialGlobal 1 sessionResponses

/-! ## Drift Monitor

`DriftMonitor` lives in `federated_learning/drift_detector.py`, which is
not under src (only its caller, `retraining_pipeline.py`, is); it is
modelled from the specification (§4.3). -/

/-- A dataset: a list of rows, each a numeric feature vector. -/
abbrev Dataset := List (List ℚ)

/-- A reference snapshot of per-feature statistics (spec §3,
`DistributionSummary`): per-feature mean and spread. -/
structure DistributionSummary where
  means : List ℚ
  spreads : List ℚ
  deriving DecidableEq, Repr

/-- The drift-check error of the taxonomy (spec §7). -/
inductive DriftError
  | insufficientData
  deriving DecidableEq, Repr

/-- A per-check drift result (spec §3, `DriftVerdict`). -/
structure DriftVerdict where
  driftScore : ℚ
  threshold : ℚ
  driftDetected : Bool
  deriving DecidableEq, Repr

/-- Mean of a list of rationals (`0` on the empty list; only applied to
nonempty lists below). -/
def listMean (xs : List ℚ) : ℚ := xs.sum / (xs.length : ℚ)

/-- Per-feature mean of a dataset at feature index `i`. -/
def featureMean (ds : Dataset) (i : ℕ) : ℚ :=
  listMean (ds.map (fun row => row.getD i 0))

/-- Modelled from the spec: `build_reference` (spec §4.3), from
`federated_learning/drift_detector.py` which is not under src.  A
reference built from fewer than `minSamples` rows fails fast with
`InsufficientDataError`; otherwise it captures a per-feature mean and a
spread (the mean absolute deviation, one concrete choice of the
pluggable spread statistic). -/
def build_reference (minSamples : ℕ) (numFeatures : ℕ) (ds : Dataset) :
    Except DriftError DistributionSummary :=
  if ds.length < minSamples then
    Except.error DriftError.insufficientData
  else
    Except.ok
      { means := (List.range numFeatures).map (featureMean ds),
        spreads := (List.range numFeatures).map (fun i =>
          listMean (ds.map (fun row => |row.getD i 0 - featureMean ds i|))) }

/-- The normalized per-feature distance (spec §4.3): a standardized mean
shift, guarding a zero spread with `1`. -/
def featureDistance (summary : DistributionSummary) (current : Dataset) (i : ℕ) : ℚ :=
  let spread := summary.spreads.getD i 0
  |featureMean current i - summary.means.getD i 0| / (if spread = 0 then 1 else spread)

/-- Modelled from the spec: `check_drift` (spec §4.3), from
`federated_learning/drift_detector.py` which is not under src.  An empty
current dataset yields `InsufficientDataError`, never a silent zero-drift
verdict; otherwise the drift score is the mean over per-feature
standardized distances and `drift_detected = (drift_score >= threshold)`. -/
def check_drift (summary : DistributionSummary) (current : Dataset) (threshold : ℚ) :
    Except DriftError DriftVerdict :=
  if current.isEmpty then
    Except.error DriftError.insufficientData
  else
    let score :=
      listMean ((List.range summary.means.length).map (featureDistance summary current))
    Except.ok
      { driftScore := score,
        threshold := threshold,
        driftDetected := decide (score ≥ threshold) }

/-! ## Inference server — `src/part2-mlops/mlops/inference_server.py` -/

/-- The HTTP response body of a successful `/predict` (lines 46-49). -/
structure PredictionResponse where
  risk_score : ℚ
  risk_probability : ℚ
  prediction : String
  deriving DecidableEq, Repr

/-- An HTTPException as raised by the handler: status code and detail. -/
structure HttpError where
  statusCode : ℕ
  detail : String
  deriving DecidableEq, Repr

/-- The risk-level branching of the handler (lines 169-174). -/
def riskLevel (riskProb : ℚ) : String :=
  if riskProb < 3/10 then "low"
  else if riskProb < 7/10 then "medium"
  else "high"

/-- The `try` block of the `/predict` handler (lines 141-182).  `fitted`
is the check `hasattr(current_model.model, 'coef_')`; the class-1
probability the model would produce (`predict_proba(features)[0][1]`,
model internals not under src) is abstracted as `riskProb`.  Raising is
modelled as `Except.error`. -/
def predictTryBlock (fitted : Bool) (riskProb : ℚ) :
    Except HttpError PredictionResponse :=
  if ¬ fitted then
    Except.error { statusCode := 503,
                   detail := "Model not trained yet. Please train a model first." }
  else
    Except.ok { risk_score := riskProb,
                risk_probability := riskProb,
                prediction := riskLevel riskProb }

/-- Embedding of the full `/predict` handler (lines 135-184): the `try`
block, wrapped by `except Exception as e` which catches every exception —
including the `HTTPException(503)` raised inside the block — and re-raises
`HTTPException(500, f"Prediction error: {str(e)}")`; `str` of an
HTTPException renders as `"<code>: <detail>"`. -/
def predict (fitted : Bool) (riskProb : ℚ) : Except HttpError PredictionResponse :=
  match predictTryBlock fitted riskProb with
  | Except.ok resp => Except.ok resp
  | Except.error e =>
    Except.error { statusCode := 500,
                   detail := "Prediction error: " ++ toString e.statusCode ++ ": " ++ e.detail }

/-! ## Theorems -/

/-- C1: for every drift check, a positive drift verdict with retraining
enabled causes exactly one invocation of the retraining pipeline, a
positive verdict with retraining disabled causes zero invocations, a
negative verdict causes zero invocations, and the drift decision is
recorded exactly once per check. -/
theorem retraining_trigger_counts (threshold : ℚ) (rd cd ts : String) (d t : Bool) :
    pipelineInvocations (check_drift_and_retrain threshold rd cd ts d t).1
      = (if d && t then 1 else 0) ∧
    driftDecisionRecords (check_drift_and_retrain threshold rd cd ts d t).1 = 1 := by
  cases d <;> cases t <;> exact ⟨rfl, rfl⟩

/-- C3 counterexample: a check with drift detected and retraining
triggered and a check with drift detected but retraining suppressed are
distinct outcomes (one invokes the pipeline, the other does not), yet the
value returned to the caller is the same (`True` in both cases), so the
three outcomes are not distinguishable by return value. -/
theorem drift_cli_return_counterexample :
    (check_drift_and_retrain (1/2) "2024-01-14" "2024-01-15" "ts" true true).2
      = (check_drift_and_retrain (1/2) "2024-01-14" "2024-01-15" "ts" true false).2 ∧
    pipelineInvocations (check_drift_and_retrain (1/2) "2024-01-14" "2024-01-15" "ts" true true).1 = 1 ∧
    pipelineInvocations (check_drift_and_retrain (1/2) "2024-01-14" "2024-01-15" "ts" true false).1 = 0 := by
  exact ⟨rfl, rfl, rfl⟩

/-- C3 amended: the value returned to the caller of
`check_drift_and_retrain` is exactly the boolean drift verdict, so the
return value distinguishes the no-drift outcome from the two drift
outcomes, but drift-with-retraining and drift-with-retraining-suppressed
return the same value. -/
theorem drift_cli_return_value (threshold : ℚ) (rd cd ts : String) (d t : Bool) :
    (check_drift_and_retrain threshold rd cd ts d t).2 = d := rfl

/-- C7 counterexample: a malformed incoming `ParameterSet` falls through
the blanket `except Exception: pass` — `fit` behaves exactly as if
parameters were absent and returns a success status, producing no typed
failure. -/
theorem client_malformed_params_counterexample :
    HealthRiskClient.fit [[0]] (fun m => (m, 5)) none Incoming.malformed
      = HealthRiskClient.fit [[0]] (fun m => (m, 5)) none Incoming.absent ∧
    (HealthRiskClient.fit [[0]] (fun m => (m, 5)) none Incoming.malformed).status.code
      = Code.OK := by
  exact ⟨rfl, rfl⟩

/-- C7 amended: in both `fit` and `evaluate`, a malformed incoming
`ParameterSet` is silently swallowed by the blanket exception catch: the
client proceeds from its current local state exactly as when parameters
are absent, and returns a success status — no typed failure is ever
produced for malformed input. -/
theorem client_malformed_params_silently_ignored (initModel : ParameterSet)
    (train : ParameterSet → ParameterSet × ℕ) (score : ParameterSet → ℚ × ℕ)
    (localModel : Option ParameterSet) :
    HealthRiskClient.fit initModel train localModel Incoming.malformed
      = HealthRiskClient.fit initModel train localModel Incoming.absent ∧
    HealthRiskClient.evaluate initModel score localModel Incoming.malformed
      = HealthRiskClient.evaluate initModel score localModel Incoming.absent ∧
    (HealthRiskClient.fit initModel train localModel Incoming.malformed).status.code
      = Code.OK ∧
    (HealthRiskClient.evaluate initModel score localModel Incoming.malformed).status.code
      = Code.OK := by
  exact ⟨rfl, rfl, rfl, rfl⟩

/-- C9: every `FitRes`/`EvaluateRes` the client returns carries status
code `OK` with message `"Success"`; in particular the coordinator-side
failure-status exclusion test is false on every result this client
produces. -/
theorem client_status_always_ok (initModel : ParameterSet)
    (train : ParameterSet → ParameterSet × ℕ) (score : ParameterSet → ℚ × ℕ)
    (localModel : Option ParameterSet) (ins : Incoming) :
    (HealthRiskClient.fit initModel train localModel ins).status
      = { code := Code.OK, message := "Success" } ∧
    (HealthRiskClient.evaluate initModel score localModel ins).status
      = { code := Code.OK, message := "Success" } ∧
    (HealthRiskClient.fit initModel train localModel ins).hasFailureStatus = false := by
  exact ⟨rfl, rfl, rfl⟩

/-- C8: when the loaded model is not fitted, the 503 HTTPException raised
inside the handler's try block is caught by the blanket `except
Exception` and re-wrapped, so the `/predict` endpoint responds with HTTP
status 500 ("Prediction error"), not 503. -/
theorem predict_unfitted_returns_500 (riskProb : ℚ) :
    predictTryBlock false riskProb
      = Except.error { statusCode := 503,
                       detail := "Model not trained yet. Please train a model first." } ∧
    predict false riskProb
      = Except.error { statusCode := 500,
                       detail := "Prediction error: 503: Model not trained yet. Please train a model first." } := by
  exact ⟨rfl, rfl⟩

/-- The risk label is `"low"` exactly below `0.3`. -/
theorem riskLevel_eq_low_iff (p : ℚ) : riskLevel p = "low" ↔ p < 3/10 := by
  unfold riskLevel
  split_ifs with h1 h2
  · simp [h1]
  · simp only [h1, iff_false]
    intro hc
    exact absurd hc (by decide)
  · simp only [h1, iff_false]
    intro hc
    exact absurd hc (by decide)

/-- The risk label is `"medium"` exactly on `[0.3, 0.7)`. -/
theorem riskLevel_eq_medium_iff (p : ℚ) :
    riskLevel p = "medium" ↔ 3/10 ≤ p ∧ p < 7/10 := by
  unfold riskLevel
  split_ifs with h1 h2
  · constructor
    · intro hc; exact absurd hc (by decide)
    · rintro ⟨hle, _⟩; exact absurd h1 (not_lt.mpr hle)
  · simp [not_lt.mp h1, h2]
  · constructor
    · intro hc; exact absurd hc (by decide)
    · rintro ⟨_, hlt⟩; exact absurd hlt h2

/-- The risk label is `"high"` exactly from `0.7` up. -/
theorem riskLevel_eq_high_iff (p : ℚ) : riskLevel p = "high" ↔ 7/10 ≤ p := by
  unfold riskLevel
  split_ifs with h1 h2
  · constructor
    · intro hc; exact absurd hc (by decide)
    · intro hle; exact absurd (h1.trans_le (by norm_num)) (not_lt.mpr hle)
  · constructor
    · intro hc; exact absurd hc (by decide)
    · intro hle; exact absurd h2 (not_lt.mpr hle)
  · simp [not_lt.mp h2]

/-- C10: every successful `/predict` response has `risk_score` equal to
`risk_probability`, and the `prediction` label is `"low"` iff that
probability is below 0.3, `"medium"` iff it lies in [0.3, 0.7), and
`"high"` iff it is at least 0.7 — the three labels partition the
probabilities. -/
theorem predict_response_fields (fitted : Bool) (p : ℚ) (r : PredictionResponse)
    (h : predict fitted p = Except.ok r) :
    r.risk_score = r.risk_probability ∧
    (r.prediction = "low" ↔ r.risk_probability < 3/10) ∧
    (r.prediction = "medium" ↔ 3/10 ≤ r.risk_probability ∧ r.risk_probability < 7/10) ∧
    (r.prediction = "high" ↔ 7/10 ≤ r.risk_probability) := by
  cases fitted with
  | false =>
    rw [show predict false p
        = Except.error { statusCode := 500,
                         detail := "Prediction error: 503: Model not trained yet. Please train a model first." }
      from rfl] at h
    exact Except.noConfusion h
  | true =>
    rw [show predict true p
        = Except.ok { risk_score := p, risk_probability := p, prediction := riskLevel p }
      from rfl] at h
    have hr := (Except.ok.inj h).symm
    subst hr
    exact ⟨rfl, riskLevel_eq_low_iff p, riskLevel_eq_medium_iff p, riskLevel_eq_high_iff p⟩

/-- C10 witness: at probability `0.5` with a fitted model, `/predict`
succeeds with `risk_score = risk_probability = 0.5` and label
`"medium"`. -/
theorem predict_response_fields_witness :
    predict true (1/2) = Except.ok { risk_score := 1/2, risk_probability := 1/2, prediction := "medium" } ∧
    (("medium" : String) = "medium" ↔ (3/10 : ℚ) ≤ 1/2 ∧ (1/2 : ℚ) < 7/10) := by
  have h : predict true (1/2)
      = Except.ok { risk_score := 1/2, risk_probability := 1/2, prediction := "medium" } := by
    norm_num [predict, predictTryBlock, riskLevel]
  exact ⟨h, (predict_response_fields true (1/2)
    { risk_score := 1/2, risk_probability := 1/2, prediction := "medium" } h).2.2.1⟩

/-- C5: a drift check on an empty current dataset fails with the typed
`InsufficientDataError` and never returns a (zero-drift or any other)
verdict; a reference summary built from fewer than the minimum sample
count likewise fails with `InsufficientDataError`. -/
theorem drift_empty_dataset_error (summary : DistributionSummary) (threshold : ℚ)
    (ds : Dataset) (minSamples numFeatures : ℕ) (h : ds.length < minSamples) :
    check_drift summary [] threshold = Except.error DriftError.insufficientData ∧
    (∀ v : DriftVerdict, check_drift summary [] threshold ≠ Except.ok v) ∧
    build_reference minSamples numFeatures ds = Except.error DriftError.insufficientData := by
  refine ⟨rfl, ?_, ?_⟩
  · intro v hv
    rw [show check_drift summary [] threshold = Except.error DriftError.insufficientData
      from rfl] at hv
    exact Except.noConfusion hv
  · unfold build_reference
    rw [if_pos h]

/-- C5 witness: a concrete empty drift check fails with
`InsufficientDataError`, as does a reference built from 0 rows with a
minimum of 1. -/
theorem drift_empty_dataset_error_witness :
    ([] : Dataset).length < 1 ∧
    check_drift { means := [0], spreads := [1] } [] (1/2)
      = Except.error DriftError.insufficientData := by
  refine ⟨by decide, ?_⟩
  exact (drift_empty_dataset_error { means := [0], spreads := [1] } (1/2) [] 1 1 (by decide)).1

/-- C4: whenever the valid, compatible results of a round number fewer
than `min_participants`, the round is marked
aborted-insufficient-participants, the `GlobalModelState` after the round
is the very state from before the round, and the session continues with
the remaining rounds from that unchanged state. -/
theorem round_insufficient_participants (minP : ℕ) (g : ParameterSet)
    (responses : RoundResponses) (rest : List RoundResponses) (n : ℕ)
    (h : (validResults (shapeOf g) responses).length < minP) :
    runRound minP g responses
      = (g, RoundOutcome.abortedInsufficientParticipants,
         (validResults (shapeOf g) responses).length) ∧
    runSessionAux minP g n (responses :: rest)
      = ((runSessionAux minP g (n + 1) rest).1,
         { roundNumber := n,
           participantsUsed := (validResults (shapeOf g) responses).length,
           outcome := RoundOutcome.abortedInsufficientParticipants }
           :: (runSessionAux minP g (n + 1) rest).2) := by
  have h1 : runRound minP g responses
      = (g, RoundOutcome.abortedInsufficientParticipants,
         (validResults (shapeOf g) responses).length) := by
    unfold runRound
    rw [if_pos h]
  refine ⟨h1, ?_⟩
  simp only [runSessionAux, h1]

/-- C4 witness: 3 invited participants, `min_participants = 2`, only 1
valid `FitResult`: the round aborts and the global state is unchanged. -/
theorem round_insufficient_participants_witness :
    (validResults (shapeOf [[0]]) [some ⟨[[1]], 5, true⟩, none, none]).length < 2 ∧
    runRound 2 [[0]] [some ⟨[[1]], 5, true⟩, none, none]
      = ([[0]], RoundOutcome.abortedInsufficientParticipants, 1) := by
  refine ⟨by decide, ?_⟩
  exact (round_insufficient_participants 2 [[0]] [some ⟨[[1]], 5, true⟩, none, none]
    [] 1 (by decide)).1

/-- The aggregated parameter set has exactly the requested shape. -/
theorem shapeOf_aggParams (results : List FitResult) (shape : List ℕ) :
    shapeOf (aggParams results shape) = shape := by
  unfold shapeOf aggParams
  rw [List.map_map]
  apply List.ext_getElem
  · simp
  · intro i h1 h2
    simp [Function.comp]
    rw [List.getElem?_eq_getElem h2]
    rfl

/-- Every in-range entry of the aggregated parameter set is the weighted
sum over the results divided by the total example count. -/
theorem aggParams_entry (results : List FitResult) (shape : List ℕ) (i j : ℕ)
    (hi : i < shape.length) (hj : j < shape.getD i 0) :
    ((aggParams results shape).getD i []).getD j 0
      = weightedSum results i j / (totalExamples results : ℚ) := by
  have hj' : j < shape[i]?.getD 0 := by
    rw [← List.getD_eq_getElem?_getD]
    exact hj
  unfold aggParams
  simp only [List.getD_eq_getElem?_getD, List.getElem?_map, List.getElem?_range,
    hi, hj', Option.map_some', Option.getD_some]

/-- C2: on every non-empty sequence of shape-compatible `FitResult`s,
`aggregate` succeeds and returns, at each parameter index `i` and element
`j`, the example-count-weighted mean
`sum(result.examples * result.parameters[i]) / sum(result.examples)`. -/
theorem aggregate_weighted_mean (results : List FitResult) (hne : results ≠ [])
    (hcompat : ∀ r ∈ results, ∀ s ∈ results,
      shapeOf r.parameters = shapeOf s.parameters) :
    ∃ ps, aggregate results = Except.ok ps ∧
      shapeOf ps = shapeOf results.headI.parameters ∧
      ∀ i j, i < ps.length → j < (ps.getD i []).length →
        (ps.getD i []).getD j 0
          = (results.map (fun r => (r.examples : ℚ) * ((r.parameters.getD i []).getD j 0))).sum
            / ((results.map FitResult.examples).sum : ℚ) := by
  cases results with
  | nil => exact absurd rfl hne
  | cons r rs =>
    have hcond : ∀ s ∈ r :: rs, shapeOf s.parameters = shapeOf r.parameters :=
      fun s hs => hcompat s hs r (List.mem_cons_self r rs)
    refine ⟨aggParams (r :: rs) (shapeOf r.parameters), ?_, ?_, ?_⟩
    · simp only [aggregate]
      rw [if_pos hcond]
    · rw [shapeOf_aggParams]
      rfl
    · intro i j hi hj
      have hlen : (aggParams (r :: rs) (shapeOf r.parameters)).length
          = (shapeOf r.parameters).length := by
        simp [aggParams]
      have hi' : i < (shapeOf r.parameters).length := hlen ▸ hi
      have hrow : ((aggParams (r :: rs) (shapeOf r.parameters)).getD i []).length
          = (shapeOf r.parameters).getD i 0 := by
        have hs := shapeOf_aggParams (r :: rs) (shapeOf r.parameters)
        calc ((aggParams (r :: rs) (shapeOf r.parameters)).getD i []).length
            = (shapeOf (aggParams (r :: rs) (shapeOf r.parameters))).getD i 0 := by
              unfold shapeOf
              exact (List.getD_map _ _ _).symm
          _ = (shapeOf r.parameters).getD i 0 := by rw [hs]
      have hj' : j < (shapeOf r.parameters).getD i 0 := hrow ▸ hj
      exact aggParams_entry (r :: rs) (shapeOf r.parameters) i j hi' hj'

/-- C2 witness: for two results with example counts 10 and 30 and single
scalar parameters 2.0 and 4.0, the aggregate is exactly
`(10*2.0 + 30*4.0) / 40 = 3.5`. -/
theorem aggregate_weighted_mean_witness :
    aggregate [⟨[[2]], 10, true⟩, ⟨[[4]], 30, true⟩] = Except.ok [[7/2]] ∧
    (∃ ps, aggregate [⟨[[2]], 10, true⟩, ⟨[[4]], 30, true⟩] = Except.ok ps ∧
      shapeOf ps
        = shapeOf ([⟨[[2]], 10, true⟩, ⟨[[4]], 30, true⟩] : List FitResult).headI.parameters ∧
      ∀ i j, i < ps.length → j < (ps.getD i []).length →
        (ps.getD i []).getD j 0
          = (([⟨[[2]], 10, true⟩, ⟨[[4]], 30, true⟩] : List FitResult).map
              (fun r => (r.examples : ℚ) * ((r.parameters.getD i []).getD j 0))).sum
            / ((([⟨[[2]], 10, true⟩, ⟨[[4]], 30, true⟩] : List FitResult).map
                FitResult.examples).sum : ℚ)) := by
  refine ⟨?_, aggregate_weighted_mean _ (List.cons_ne_nil _ _) (by decide)⟩
  norm_num [aggregate, aggParams, weightedSum, totalExamples, shapeOf, List.range_succ]

/-- Permuting the results leaves the total example count unchanged. -/
theorem totalExamples_perm {rs rs' : List FitResult} (h : rs.Perm rs') :
    totalExamples rs = totalExamples rs' :=
  List.Perm.sum_eq (h.map FitResult.examples)

/-- Permuting the results leaves each weighted sum unchanged. -/
theorem weightedSum_perm {rs rs' : List FitResult} (h : rs.Perm rs') (i j : ℕ) :
    weightedSum rs i j = weightedSum rs' i j :=
  List.Perm.sum_eq (h.map _)

/-- Permuting the results leaves the aggregated parameters unchanged. -/
theorem aggParams_perm {rs rs' : List FitResult} (h : rs.Perm rs') (shape : List ℕ) :
    aggParams rs shape = aggParams rs' shape := by
  unfold aggParams
  simp only [weightedSum_perm h, totalExamples_perm h]

/-- C6: `aggregate` is order-invariant — for every permutation of the
input sequence it yields the same result (exactly, over the exact
arithmetic of the embedding), success and failure cases alike. -/
theorem aggregate_order_invariant (rs rs' : List FitResult) (h : rs.Perm rs') :
    aggregate rs = aggregate rs' := by
  cases rs with
  | nil =>
    have h0 : rs' = [] := List.Perm.eq_nil h.symm
    rw [h0]
  | cons a as =>
    cases rs' with
    | nil => exact absurd (List.Perm.eq_nil h) (List.cons_ne_nil a as)
    | cons b bs =>
      by_cases hc : ∀ s ∈ a :: as, shapeOf s.parameters = shapeOf a.parameters
      · have hb : shapeOf b.parameters = shapeOf a.parameters :=
          hc b (h.mem_iff.mpr (List.mem_cons_self b bs))
        have hc' : ∀ s ∈ b :: bs, shapeOf s.parameters = shapeOf b.parameters := by
          intro s hs
          rw [hb]
          exact hc s (h.mem_iff.mpr hs)
        simp only [aggregate]
        rw [if_pos hc, if_pos hc', hb, aggParams_perm h]
      · have hc' : ¬ ∀ s ∈ b :: bs, shapeOf s.parameters = shapeOf b.parameters := by
          intro hcontra
          apply hc
          have hb : shapeOf a.parameters = shapeOf b.parameters :=
            hcontra a (h.mem_iff.mp (List.mem_cons_self a as))
          intro s hs
          exact (hcontra s (h.mem_iff.mp hs)).trans hb.symm
        simp only [aggregate]
        rw [if_neg hc, if_neg hc']

/-- C6 witness: swapping the two results of the weight-correctness
example leaves the aggregate unchanged. -/
theorem aggregate_order_invariant_witness :
    ([⟨[[2]], 10, true⟩, ⟨[[4]], 30, true⟩] : List FitResult).Perm
      [⟨[[4]], 30, true⟩, ⟨[[2]], 10, true⟩] ∧
    aggregate [⟨[[2]], 10, true⟩, ⟨[[4]], 30, true⟩]
      = aggregate [⟨[[4]], 30, true⟩, ⟨[[2]], 10, true⟩] := by
  have hp : ([⟨[[2]], 10, true⟩, ⟨[[4]], 30, true⟩] : List FitResult).Perm
      [⟨[[4]], 30, true⟩, ⟨[[2]], 10, true⟩] := List.Perm.swap _ _ _
  exact ⟨hp, aggregate_order_invariant _ _ hp⟩

end HealthRisk
